import Mathlib

/-!
# Verification of the Renaissance accounting & settlement core

Shallow embedding of the repository's three components:

* the **Idempotency Engine** (`contracts/common/src/idempotency.rs`),
* the **Balance Ledger** (`contracts/balance_ledger/src/lib.rs`),
* the **Settlement Orchestrator** (`contracts/settlement/src/lib.rs`).

Machine integers (`u64` timestamps, `i128` amounts) are modelled as `Nat`
and `Int` with explicit range checks where the source checks them
(`checked_add`, `saturating_sub`).  Soroban persistent storage maps are
modelled as association lists with first-match lookup; `storage.set` is
modelled by consing the new binding (observationally equal to overwrite
under first-match lookup).  Fallible entry points return `Except`; an
error models the host's transaction abort, so no state accompanies it.
Addresses, symbols and 32-byte hashes are modelled as `Nat` / `String`
identifiers: the code only ever compares them for equality.
-/

set_option maxRecDepth 8000

instance {ε α : Type} [DecidableEq ε] [DecidableEq α] : DecidableEq (Except ε α) :=
  fun x y =>
    match x, y with
    | Except.ok a, Except.ok b =>
      if h : a = b then Decidable.isTrue (by rw [h])
      else Decidable.isFalse (fun hc => h (Except.ok.inj hc))
    | Except.error a, Except.error b =>
      if h : a = b then Decidable.isTrue (by rw [h])
      else Decidable.isFalse (fun hc => h (Except.error.inj hc))
    | Except.ok _, Except.error _ => Decidable.isFalse (fun hc => Except.noConfusion hc)
    | Except.error _, Except.ok _ => Decidable.isFalse (fun hc => Except.noConfusion hc)

/-- Association-list lookup with decidable key equality (first match wins),
modelling Soroban `storage.get`. -/
def alookup {α β : Type} [DecidableEq α] (k : α) : List (α × β) → Option β
  | [] => none
  | (k2, v) :: rest => if k = k2 then some v else alookup k rest

/-- Association-list removal of every binding of a key, modelling
`storage.remove`. -/
def aremove {α β : Type} [DecidableEq α] (k : α) : List (α × β) → List (α × β)
  | [] => []
  | (k2, v) :: rest => if k2 = k then aremove k rest else (k2, v) :: aremove k rest

theorem alookup_cons_self {α β : Type} [DecidableEq α] (k : α) (v : β) (m : List (α × β)) :
    alookup k ((k, v) :: m) = some v := by
  simp [alookup]

theorem alookup_cons_ne {α β : Type} [DecidableEq α] {k k2 : α} (v : β) (m : List (α × β))
    (h : k ≠ k2) : alookup k ((k2, v) :: m) = alookup k m := by
  simp [alookup, h]

theorem alookup_aremove_self {α β : Type} [DecidableEq α] (k : α) (m : List (α × β)) :
    alookup k (aremove k m) = none := by
  induction m with
  | nil => rfl
  | cons p rest ih =>
    obtain ⟨k2, v⟩ := p
    by_cases hk : k2 = k
    · simpa [aremove, hk] using ih
    · have hk2 : ¬k = k2 := fun h2 => hk h2.symm
      simp [aremove, hk, alookup, hk2, ih]

theorem aremove_of_alookup_none {α β : Type} [DecidableEq α] {k : α} {m : List (α × β)}
    (h : alookup k m = none) : aremove k m = m := by
  induction m with
  | nil => rfl
  | cons p rest ih =>
    obtain ⟨k2, v⟩ := p
    by_cases hk : k = k2
    · simp [alookup, hk] at h
    · have hk2 : ¬k2 = k := fun h2 => hk h2.symm
      simp [alookup, hk] at h
      simp [aremove, hk2, ih h]

/-! ## Errors

`ContractError` from `contracts/common/src/errors.rs` (shared by the
settlement contract and the idempotency engine), and
`BalanceLedgerError` from `contracts/balance_ledger/src/lib.rs` —
note the ledger's own error enum has exactly these six variants and in
particular no `NotInitialized` variant. -/

inductive ContractError
  | Unauthorized
  | InvalidAmount
  | InvalidBet
  | BetNotFound
  | BetAlreadySettled
  | InsufficientBalance
  | TransferFailed
  | InvalidStatus
  | SpinAlreadyExecuted
  | InvalidSignature
  | InvalidSpinHash
  | SpinNotFound
  | BelowMinStake
  | CooldownNotMet
  | StakeNotFound
  | NotInitialized
  | AlreadyInitialized
  | BetAlreadyPlaced
  | DuplicateOperation
  deriving DecidableEq

inductive BalanceLedgerError
  | Unauthorized
  | AlreadyInitialized
  | InvalidAmount
  | InsufficientWithdrawable
  | InsufficientLocked
  | Overflow
  deriving DecidableEq

/-! ## Idempotency Engine (`contracts/common/src/idempotency.rs`)

Keys are `(scope, operation_hash)` pairs (`DataKey::ExecutedOp`); the
scope `Symbol` is a `String`, the `BytesN<32>` hash a `Nat`.  The logical
clock `env.ledger().timestamp()` is passed explicitly as `now : Nat`. -/

/-- Source `ExecutionRecord` from `idempotency.rs`. -/
structure ExecutionRecord where
  executed_at : Nat
  ttl_seconds : Option Nat
  deriving DecidableEq

abbrev OpKey := String × Nat

abbrev OpMap := List (OpKey × ExecutionRecord)

/-- Source `is_expired`: `now.saturating_sub(executed_at) >= ttl` when a TTL is
present (on `Nat`, `-` is saturating subtraction), `false` otherwise. -/
def is_expired (now : Nat) (record : ExecutionRecord) : Bool :=
  match record.ttl_seconds with
  | some ttl => decide (ttl ≤ now - record.executed_at)
  | none => false

/-- Source `ensure_not_replayed`: reject a live record with `DuplicateOperation`;
remove an expired record; (re)write a fresh record stamped `now`. -/
def ensure_not_replayed (now : Nat) (m : OpMap) (scope : String) (operation_hash : Nat)
    (ttl_seconds : Option Nat) : Except ContractError OpMap :=
  let key : OpKey := (scope, operation_hash)
  match alookup key m with
  | some record =>
    if is_expired now record then
      Except.ok ((key, ⟨now, ttl_seconds⟩) :: aremove key m)
    else
      Except.error ContractError.DuplicateOperation
  | none => Except.ok ((key, ⟨now, ttl_seconds⟩) :: m)

/-- Source `cleanup_operation`: delete an expired record and return `true`;
otherwise return `false` and leave the map unchanged. -/
def cleanup_operation (now : Nat) (m : OpMap) (scope : String) (operation_hash : Nat) :
    Bool × OpMap :=
  let key : OpKey := (scope, operation_hash)
  match alookup key m with
  | some record =>
    if is_expired now record then (true, aremove key m) else (false, m)
  | none => (false, m)

/-- Source `is_operation_executed`: a live (non-expired) record exists. -/
def is_operation_executed (now : Nat) (m : OpMap) (scope : String) (operation_hash : Nat) :
    Bool :=
  match alookup (scope, operation_hash) m with
  | some record => !is_expired now record
  | none => false

/-! ## Balance Ledger (`contracts/balance_ledger/src/lib.rs`)

Addresses are `Nat`; `i128` amounts are `Int` with explicit 128-bit
signed range checks exactly where the source uses `checked_add`. -/

def i128Max : Int := 2 ^ 127 - 1

def i128Min : Int := -(2 ^ 127)

/-- Source `x` is representable as an `i128`. -/
def i128Ok (x : Int) : Bool := decide (i128Min ≤ x ∧ x ≤ i128Max)

/-- Source `UserBalance` from the ledger source. -/
structure UserBalance where
  withdrawable : Int
  locked : Int
  deriving DecidableEq

/-- Source `UserMetrics` from the ledger source. -/
structure UserMetrics where
  total_staked : Int
  total_won : Int
  total_lost : Int
  deriving DecidableEq

/-- The ledger's persistent storage: `DataKey::BackendSigner`,
`DataKey::Balance(addr)` and `DataKey::Metrics(addr)`. -/
structure LedgerState where
  signer : Option Nat
  balances : List (Nat × UserBalance)
  metrics : List (Nat × UserMetrics)
  deriving DecidableEq

def emptyLedger : LedgerState := ⟨none, [], []⟩

/-- Source `i128::checked_add` followed by `.ok_or(Overflow)`. -/
def checked_add (a b : Int) : Except BalanceLedgerError Int :=
  if i128Ok (a + b) then Except.ok (a + b) else Except.error BalanceLedgerError.Overflow

def validate_non_negative (amount : Int) : Except BalanceLedgerError Unit :=
  if amount < 0 then Except.error BalanceLedgerError.InvalidAmount else Except.ok ()

def validate_positive (amount : Int) : Except BalanceLedgerError Unit :=
  if amount ≤ 0 then Except.error BalanceLedgerError.InvalidAmount else Except.ok ()

/-- Source `get_user_balance`: stored balance or the `(0, 0)` default. -/
def get_user_balance (st : LedgerState) (user : Nat) : UserBalance :=
  (alookup user st.balances).getD ⟨0, 0⟩

/-- Source `store_user_balance` (`storage.set`, modelled as shadowing cons). -/
def store_user_balance (st : LedgerState) (user : Nat) (balance : UserBalance) :
    LedgerState :=
  { st with balances := (user, balance) :: st.balances }

def get_user_metrics (st : LedgerState) (user : Nat) : UserMetrics :=
  (alookup user st.metrics).getD ⟨0, 0, 0⟩

def store_user_metrics (st : LedgerState) (user : Nat) (m : UserMetrics) : LedgerState :=
  { st with metrics := (user, m) :: st.metrics }

/-- Source `apply_balance_delta`: checked adds, then non-negativity guards. -/
def apply_balance_delta (current : UserBalance) (withdrawable_delta locked_delta : Int) :
    Except BalanceLedgerError UserBalance :=
  match checked_add current.withdrawable withdrawable_delta with
  | Except.error e => Except.error e
  | Except.ok next_withdrawable =>
    match checked_add current.locked locked_delta with
    | Except.error e => Except.error e
    | Except.ok next_locked =>
      if next_withdrawable < 0 then Except.error BalanceLedgerError.InsufficientWithdrawable
      else if next_locked < 0 then Except.error BalanceLedgerError.InsufficientLocked
      else Except.ok ⟨next_withdrawable, next_locked⟩

/-- Source `require_backend_auth`: fails with `Unauthorized` when no backend
signer is stored; the host-level `require_auth()` proof of the stored
identity is assumed supplied (all claims concern backend-made calls). -/
def require_backend_auth (st : LedgerState) : Except BalanceLedgerError Unit :=
  match st.signer with
  | some _ => Except.ok ()
  | none => Except.error BalanceLedgerError.Unauthorized

namespace BalanceLedger

/-- The ledger's one-time backend-signer setup entry point (named
`initialize` in the source; that word is a Lean keyword). -/
def init (st : LedgerState) (backend_signer : Nat) :
    Except BalanceLedgerError LedgerState :=
  match st.signer with
  | some _ => Except.error BalanceLedgerError.AlreadyInitialized
  | none => Except.ok { st with signer := some backend_signer }

/-- Source `set_balance`: auth, validate both args ≥ 0, overwrite. -/
def set_balance (st : LedgerState) (user : Nat) (withdrawable locked : Int) :
    Except BalanceLedgerError LedgerState :=
  match require_backend_auth st with
  | Except.error e => Except.error e
  | Except.ok _ =>
    match validate_non_negative withdrawable with
    | Except.error e => Except.error e
    | Except.ok _ =>
      match validate_non_negative locked with
      | Except.error e => Except.error e
      | Except.ok _ => Except.ok (store_user_balance st user ⟨withdrawable, locked⟩)

/-- Source `apply_delta`: auth, then `apply_balance_delta` on the snapshot. -/
def apply_delta (st : LedgerState) (user : Nat) (withdrawable_delta locked_delta : Int) :
    Except BalanceLedgerError LedgerState :=
  match require_backend_auth st with
  | Except.error e => Except.error e
  | Except.ok _ =>
    match apply_balance_delta (get_user_balance st user) withdrawable_delta locked_delta with
    | Except.error e => Except.error e
    | Except.ok updated => Except.ok (store_user_balance st user updated)

/-- Source `lock_funds`: move `amount` from withdrawable to locked. -/
def lock_funds (st : LedgerState) (user : Nat) (amount : Int) :
    Except BalanceLedgerError LedgerState :=
  match require_backend_auth st with
  | Except.error e => Except.error e
  | Except.ok _ =>
    match validate_positive amount with
    | Except.error e => Except.error e
    | Except.ok _ =>
      if (get_user_balance st user).withdrawable < amount then
        Except.error BalanceLedgerError.InsufficientWithdrawable
      else
        match apply_balance_delta (get_user_balance st user) (-amount) amount with
        | Except.error e => Except.error e
        | Except.ok updated => Except.ok (store_user_balance st user updated)

/-- Source `unlock_funds`: move `amount` from locked to withdrawable. -/
def unlock_funds (st : LedgerState) (user : Nat) (amount : Int) :
    Except BalanceLedgerError LedgerState :=
  match require_backend_auth st with
  | Except.error e => Except.error e
  | Except.ok _ =>
    match validate_positive amount with
    | Except.error e => Except.error e
    | Except.ok _ =>
      if (get_user_balance st user).locked < amount then
        Except.error BalanceLedgerError.InsufficientLocked
      else
        match apply_balance_delta (get_user_balance st user) amount (-amount) with
        | Except.error e => Except.error e
        | Except.ok updated => Except.ok (store_user_balance st user updated)

/-- Source `get_total`: `checked_add(withdrawable, locked)`. -/
def get_total (st : LedgerState) (user : Nat) : Except BalanceLedgerError Int :=
  checked_add (get_user_balance st user).withdrawable (get_user_balance st user).locked

/-- Source `record_metrics`: auth, validate the three deltas ≥ 0, checked adds. -/
def record_metrics (st : LedgerState) (user : Nat) (staked_delta won_delta lost_delta : Int) :
    Except BalanceLedgerError LedgerState :=
  match require_backend_auth st with
  | Except.error e => Except.error e
  | Except.ok _ =>
    match validate_non_negative staked_delta with
    | Except.error e => Except.error e
    | Except.ok _ =>
      match validate_non_negative won_delta with
      | Except.error e => Except.error e
      | Except.ok _ =>
        match validate_non_negative lost_delta with
        | Except.error e => Except.error e
        | Except.ok _ =>
          match checked_add (get_user_metrics st user).total_staked staked_delta with
          | Except.error e => Except.error e
          | Except.ok ts =>
            match checked_add (get_user_metrics st user).total_won won_delta with
            | Except.error e => Except.error e
            | Except.ok tw =>
              match checked_add (get_user_metrics st user).total_lost lost_delta with
              | Except.error e => Except.error e
              | Except.ok tl => Except.ok (store_user_metrics st user ⟨ts, tw, tl⟩)

end BalanceLedger

/-! ### Reachable ledger states

A `LedgerOp` is one entry-point call with its arguments; `wf` records
that the `i128` arguments are representable (the ABI only admits such
values).  `Reachable` closes the empty state under *successful* calls
(a failed call aborts and leaves the persistent state unchanged). -/

inductive LedgerOp
  | init (backend_signer : Nat)
  | setBal (user : Nat) (withdrawable locked : Int)
  | delta (user : Nat) (withdrawable_delta locked_delta : Int)
  | lock (user : Nat) (amount : Int)
  | unlock (user : Nat) (amount : Int)
  | metrics (user : Nat) (staked_delta won_delta lost_delta : Int)
  deriving DecidableEq

def LedgerOp.wf : LedgerOp → Bool
  | .init _ => true
  | .setBal _ w l => i128Ok w && i128Ok l
  | .delta _ dw dl => i128Ok dw && i128Ok dl
  | .lock _ a => i128Ok a
  | .unlock _ a => i128Ok a
  | .metrics _ sd wd ld => i128Ok sd && i128Ok wd && i128Ok ld

def runOp (op : LedgerOp) (st : LedgerState) : Except BalanceLedgerError LedgerState :=
  match op with
  | .init s => BalanceLedger.init st s
  | .setBal u w l => BalanceLedger.set_balance st u w l
  | .delta u dw dl => BalanceLedger.apply_delta st u dw dl
  | .lock u a => BalanceLedger.lock_funds st u a
  | .unlock u a => BalanceLedger.unlock_funds st u a
  | .metrics u sd wd ld => BalanceLedger.record_metrics st u sd wd ld

inductive Reachable : LedgerState → Prop
  | empty : Reachable emptyLedger
  | step {st st2 : LedgerState} (op : LedgerOp) :
      Reachable st → op.wf = true → runOp op st = Except.ok st2 → Reachable st2

/-! ## Settlement Orchestrator (`contracts/settlement/src/lib.rs`)

The settlement source file contains two contradictorily merged variants
of `settle_bet` (a fund-moving variant dispatching on WIN/LOSS/DRAW at
lines 59–125 with its settled-marking tail at lines 156–157, and a
simpler record-only variant with the idempotency guard at lines
126–168); the file as written does not compile.  Following the spec's
§4.3 and §9, the entry point modelled here is the fund-moving variant
augmented with the operation-hash replay guard, in the spec's step
order: authorization, replay guard, settled check, outcome dispatch,
mark settled.  The WIN/LOSS/DRAW dispatch and the `Settled(bet_id)`
check are taken verbatim from the source's fund-moving variant.

A ledger sub-call (`env.invoke_contract` of `apply_delta`) that returns
an error traps and aborts the whole settlement transaction; the model
surfaces that as the distinct failure `SettleFailure.ledgerTrap`. -/

/-- Outcome of one `settle_bet` call: a `ContractError` returned by the
settlement contract itself, or a trap of an invoked ledger call. -/
inductive SettleFailure
  | contract (e : ContractError)
  | ledgerTrap (e : BalanceLedgerError)
  deriving DecidableEq

/-- The settlement contract's persistent storage: `DataKey::BackendSigner`,
`DataKey::BalanceLedgerContract` and the `DataKey::Settled(bet_id)` marks
(`U256` bet ids modelled as `Nat`), plus the idempotency records it owns
under scope `"settlement"`. -/
structure SettlementState where
  signer : Option Nat
  ledgerAddr : Option Nat
  settled : List Nat
  ops : OpMap
  deriving DecidableEq

/-- The two collaborating contracts' storage. -/
structure SysState where
  stl : SettlementState
  ledger : LedgerState
  deriving DecidableEq

def settlement_require_backend_auth (st : SettlementState) : Except ContractError Unit :=
  match st.signer with
  | some _ => Except.ok ()
  | none => Except.error ContractError.Unauthorized

/-- The WIN/LOSS/DRAW dispatch of `settle_bet` (source lines 80–118):
the `apply_delta` invocations on the balance ledger, verbatim. -/
def settle_dispatch (ledger : LedgerState) (bettor : Nat) (winner : Option Nat)
    (bet_amount payout : Int) (settlement_type : String) :
    Except SettleFailure LedgerState :=
  if settlement_type = "WIN" then
    match winner with
    | none => Except.error (SettleFailure.contract ContractError.InvalidBet)
    | some winner_addr =>
      match BalanceLedger.apply_delta ledger bettor 0 (-bet_amount) with
      | Except.error e => Except.error (SettleFailure.ledgerTrap e)
      | Except.ok ledger1 =>
        match BalanceLedger.apply_delta ledger1 winner_addr payout 0 with
        | Except.error e => Except.error (SettleFailure.ledgerTrap e)
        | Except.ok ledger2 => Except.ok ledger2
  else if settlement_type = "LOSS" then
    match BalanceLedger.apply_delta ledger bettor 0 (-bet_amount) with
    | Except.error e => Except.error (SettleFailure.ledgerTrap e)
    | Except.ok ledger1 => Except.ok ledger1
  else if settlement_type = "DRAW" then
    match BalanceLedger.apply_delta ledger bettor bet_amount (-bet_amount) with
    | Except.error e => Except.error (SettleFailure.ledgerTrap e)
    | Except.ok ledger1 => Except.ok ledger1
  else
    Except.error (SettleFailure.contract ContractError.InvalidStatus)

namespace Settlement

/-- The settlement contract's setup entry point (named `initialize` in
the source; that word is a Lean keyword): stores backend signer and
ledger address unconditionally — no already-initialized check. -/
def init (sys : SysState) (backend_signer balance_ledger : Nat) : SysState :=
  { sys with
    stl := { sys.stl with signer := some backend_signer, ledgerAddr := some balance_ledger } }

/-- Source `is_settled`. -/
def is_settled (sys : SysState) (bet_id : Nat) : Bool := decide (bet_id ∈ sys.stl.settled)

/-- Modelled from the spec: the complete `settle_bet` entry point is
missing from the source as a single compilable function (the file merges
two contradictory variants); following spec §4.3 steps 1–5 and the §9
note electing the fund-moving variant, this definition sequences
backend authorization, the Idempotency-Engine guard under scope
`"settlement"` with the caller-supplied `operation_hash` and TTL, the
permanent `Settled(bet_id)` check, the source's WIN/LOSS/DRAW ledger
dispatch, and finally marks the wager settled. -/
def settle_bet (now : Nat) (sys : SysState) (operation_hash : Nat) (bet_id : Nat)
    (bettor : Nat) (winner : Option Nat) (bet_amount payout : Int)
    (settlement_type : String) (ttl_seconds : Option Nat) :
    Except SettleFailure SysState :=
  match settlement_require_backend_auth sys.stl with
  | Except.error e => Except.error (SettleFailure.contract e)
  | Except.ok _ =>
    match ensure_not_replayed now sys.stl.ops "settlement" operation_hash ttl_seconds with
    | Except.error e => Except.error (SettleFailure.contract e)
    | Except.ok ops2 =>
      if bet_id ∈ sys.stl.settled then
        Except.error (SettleFailure.contract ContractError.BetAlreadySettled)
      else
        match sys.stl.ledgerAddr with
        | none => Except.error (SettleFailure.contract ContractError.Unauthorized)
        | some _ =>
          match settle_dispatch sys.ledger bettor winner bet_amount payout settlement_type with
          | Except.error e => Except.error e
          | Except.ok ledger2 =>
            Except.ok
              { stl := { sys.stl with settled := bet_id :: sys.stl.settled, ops := ops2 },
                ledger := ledger2 }

/-- Source `is_operation_executed` re-exported under the `"settlement"` scope. -/
def is_op_executed (now : Nat) (sys : SysState) (operation_hash : Nat) : Bool :=
  is_operation_executed now sys.stl.ops "settlement" operation_hash

end Settlement

/-! ## Theorems -/

/-- C2. For every scope `s`, hash `h` and finite ttl `t > 0`, starting
with no record for `(s, h)`: `guard(s, h, t)` succeeds; a second
`guard(s, h, t)` strictly less than `t` seconds later fails with
`DuplicateOperation`; once at least `t` seconds have elapsed since the
first guard, `cleanup(s, h)` returns `true`, an immediately repeated
`cleanup(s, h)` returns `false`, and a subsequent `guard(s, h, t)`
succeeds again. -/
theorem guard_ttl_lifecycle (m : OpMap) (s : String) (h : Nat) (t now now2 now3 : Nat)
    (hnone : alookup (s, h) m = none) (ht : 0 < t)
    (hwin : now2 - now < t) (hexp : now + t ≤ now3) :
    ensure_not_replayed now m s h (some t) = Except.ok (((s, h), ⟨now, some t⟩) :: m) ∧
    ensure_not_replayed now2 (((s, h), ⟨now, some t⟩) :: m) s h (some t) =
      Except.error ContractError.DuplicateOperation ∧
    (cleanup_operation now3 (((s, h), ⟨now, some t⟩) :: m) s h).1 = true ∧
    (cleanup_operation now3
        (cleanup_operation now3 (((s, h), ⟨now, some t⟩) :: m) s h).2 s h).1 = false ∧
    ∃ m3, ensure_not_replayed now3
        (cleanup_operation now3 (((s, h), ⟨now, some t⟩) :: m) s h).2 s h (some t) =
      Except.ok m3 := by
  have hlive : is_expired now2 (⟨now, some t⟩ : ExecutionRecord) = false := by
    simp only [is_expired, decide_eq_false_iff_not, not_le]
    omega
  have hdead : is_expired now3 (⟨now, some t⟩ : ExecutionRecord) = true := by
    simp only [is_expired, decide_eq_true_eq]
    omega
  have hclean : cleanup_operation now3 (((s, h), ⟨now, some t⟩) :: m) s h =
      (true, m) := by
    have : aremove ((s, h) : OpKey) (((s, h), (⟨now, some t⟩ : ExecutionRecord)) :: m) = m := by
      simp [aremove, aremove_of_alookup_none hnone]
    simp [cleanup_operation, alookup_cons_self, hdead, this]
  refine ⟨by simp [ensure_not_replayed, hnone], ?_, ?_, ?_, ?_⟩
  · simp [ensure_not_replayed, alookup_cons_self, hlive]
  · simp [hclean]
  · rw [hclean]
    simp [cleanup_operation, hnone]
  · rw [hclean]
    exact ⟨((s, h), ⟨now3, some t⟩) :: m, by simp [ensure_not_replayed, hnone]⟩

/-- Witness for C2 at `m = []`, `s = "x"`, `h = 3`, `t = 5`, `now = 10`,
`now2 = 14`, `now3 = 15`. -/
theorem guard_ttl_lifecycle_witness :
    (alookup (("x", 3) : OpKey) ([] : OpMap) = none ∧ 0 < 5 ∧ 14 - 10 < 5 ∧ 10 + 5 ≤ 15) ∧
    (ensure_not_replayed 10 [] "x" 3 (some 5) =
      Except.ok [(("x", 3), ⟨10, some 5⟩)] ∧
    ensure_not_replayed 14 [(("x", 3), ⟨10, some 5⟩)] "x" 3 (some 5) =
      Except.error ContractError.DuplicateOperation ∧
    (cleanup_operation 15 [(("x", 3), ⟨10, some 5⟩)] "x" 3).1 = true ∧
    (cleanup_operation 15
        (cleanup_operation 15 [(("x", 3), ⟨10, some 5⟩)] "x" 3).2 "x" 3).1 = false ∧
    ∃ m3, ensure_not_replayed 15
        (cleanup_operation 15 [(("x", 3), ⟨10, some 5⟩)] "x" 3).2 "x" 3 (some 5) =
      Except.ok m3) :=
  ⟨⟨rfl, by decide, by decide, by decide⟩,
    guard_ttl_lifecycle [] "x" 3 5 10 14 15 rfl (by decide) (by decide) (by decide)⟩

/-- C3 (amended). A record carrying `ttl_seconds = some t` with `t > 0`
is never reported expired while the clock has not advanced past its
`executed_at`: `is_executed` returns `true`, `guard` on the same key fails
with `DuplicateOperation` (for every ttl argument), and `cleanup` returns
`false` leaving the map unchanged.  (For `t = 0` the claim fails: see the
counterexample.) -/
theorem ttl_entry_live_before_clock_advance (m : OpMap) (s : String) (h : Nat)
    (r : ExecutionRecord) (t now : Nat) (hr : alookup (s, h) m = some r)
    (httl : r.ttl_seconds = some t) (ht : 0 < t) (hnow : now ≤ r.executed_at) :
    is_operation_executed now m s h = true ∧
    (∀ ttl2, ensure_not_replayed now m s h ttl2 =
      Except.error ContractError.DuplicateOperation) ∧
    cleanup_operation now m s h = (false, m) := by
  have hlive : is_expired now r = false := by
    simp only [is_expired, httl, decide_eq_false_iff_not, not_le]
    omega
  refine ⟨?_, fun ttl2 => ?_, ?_⟩
  · simp [is_operation_executed, hr, hlive]
  · simp [ensure_not_replayed, hr, hlive]
  · simp [cleanup_operation, hr, hlive]

/-- Witness for C3 (amended) at a record executed at time 10 with ttl 5,
observed at the same time 10. -/
theorem ttl_entry_live_before_clock_advance_witness :
    (alookup (("settlement", 2) : OpKey)
        ([(("settlement", 2), ⟨10, some 5⟩)] : OpMap) = some ⟨10, some 5⟩ ∧
      (ExecutionRecord.mk 10 (some 5)).ttl_seconds = some 5 ∧ 0 < 5 ∧ 10 ≤ 10) ∧
    (is_operation_executed 10 [(("settlement", 2), ⟨10, some 5⟩)] "settlement" 2 = true ∧
    (∀ ttl2, ensure_not_replayed 10 [(("settlement", 2), ⟨10, some 5⟩)] "settlement" 2 ttl2 =
      Except.error ContractError.DuplicateOperation) ∧
    cleanup_operation 10 [(("settlement", 2), ⟨10, some 5⟩)] "settlement" 2 =
      (false, [(("settlement", 2), ⟨10, some 5⟩)])) :=
  ⟨⟨rfl, rfl, by decide, by decide⟩,
    ttl_entry_live_before_clock_advance [(("settlement", 2), ⟨10, some 5⟩)] "settlement" 2
      ⟨10, some 5⟩ 5 10 rfl rfl (by decide) (by decide)⟩

/-- C3 counterexample. A record with `ttl_seconds = some 0` executed at
time 5, observed at the same time 5 (`now ≤ executed_at`), *is* reported
expired: `is_executed` returns `false`, `cleanup` returns `true`, and
`guard` on the same key succeeds — refuting the claim's inclusion of
`t = 0`. -/
theorem ttl_zero_expired_at_creation_time :
    is_operation_executed 5 [(("settlement", 1), ⟨5, some 0⟩)] "settlement" 1 = false ∧
    (cleanup_operation 5 [(("settlement", 1), ⟨5, some 0⟩)] "settlement" 1).1 = true ∧
    ensure_not_replayed 5 [(("settlement", 1), ⟨5, some 0⟩)] "settlement" 1 (some 0) =
      Except.ok [(("settlement", 1), ⟨5, some 0⟩)] := by
  refine ⟨rfl, rfl, rfl⟩

/-! ### Characterizations of successful ledger calls -/

theorem validate_non_negative_ok {a : Int} {u : Unit}
    (h : validate_non_negative a = Except.ok u) : 0 ≤ a := by
  unfold validate_non_negative at h
  split_ifs at h with h1
  omega

theorem validate_positive_ok {a : Int} {u : Unit}
    (h : validate_positive a = Except.ok u) : 0 < a := by
  unfold validate_positive at h
  split_ifs at h with h1
  omega

theorem require_backend_auth_ok {st : LedgerState} {u : Unit}
    (h : require_backend_auth st = Except.ok u) : ∃ s, st.signer = some s := by
  unfold require_backend_auth at h
  split at h
  · rename_i s hs
    exact ⟨s, hs⟩
  · simp at h

theorem init_ok_balances {st : LedgerState} {s : Nat} {st2 : LedgerState}
    (h : BalanceLedger.init st s = Except.ok st2) : st2.balances = st.balances := by
  unfold BalanceLedger.init at h
  split at h
  · simp at h
  · simp only [Except.ok.injEq] at h
    subst h
    rfl

theorem set_balance_ok {st : LedgerState} {u : Nat} {w l : Int} {st2 : LedgerState}
    (h : BalanceLedger.set_balance st u w l = Except.ok st2) :
    0 ≤ w ∧ 0 ≤ l ∧ st2 = store_user_balance st u ⟨w, l⟩ := by
  unfold BalanceLedger.set_balance at h
  split at h
  · simp at h
  · split at h
    · simp at h
    · rename_i v1 heq1
      split at h
      · simp at h
      · rename_i v2 heq2
        simp only [Except.ok.injEq] at h
        exact ⟨validate_non_negative_ok heq1, validate_non_negative_ok heq2, h.symm⟩

theorem apply_delta_ok {st : LedgerState} {u : Nat} {dw dl : Int} {st2 : LedgerState}
    (h : BalanceLedger.apply_delta st u dw dl = Except.ok st2) :
    ∃ b, apply_balance_delta (get_user_balance st u) dw dl = Except.ok b ∧
      st2 = store_user_balance st u b := by
  unfold BalanceLedger.apply_delta at h
  split at h
  · simp at h
  · split at h
    · simp at h
    · rename_i updated heq
      simp only [Except.ok.injEq] at h
      exact ⟨updated, heq, h.symm⟩

theorem lock_funds_ok {st : LedgerState} {u : Nat} {a : Int} {st2 : LedgerState}
    (h : BalanceLedger.lock_funds st u a = Except.ok st2) :
    0 < a ∧ a ≤ (get_user_balance st u).withdrawable ∧
    ∃ b, apply_balance_delta (get_user_balance st u) (-a) a = Except.ok b ∧
      st2 = store_user_balance st u b := by
  unfold BalanceLedger.lock_funds at h
  split at h
  · simp at h
  · split at h
    · simp at h
    · rename_i v1 heq1
      split_ifs at h with h1
      split at h
      · simp at h
      · rename_i b hb
        simp only [Except.ok.injEq] at h
        exact ⟨validate_positive_ok heq1, not_lt.mp h1, b, hb, h.symm⟩

theorem unlock_funds_ok {st : LedgerState} {u : Nat} {a : Int} {st2 : LedgerState}
    (h : BalanceLedger.unlock_funds st u a = Except.ok st2) :
    0 < a ∧ a ≤ (get_user_balance st u).locked ∧
    ∃ b, apply_balance_delta (get_user_balance st u) a (-a) = Except.ok b ∧
      st2 = store_user_balance st u b := by
  unfold BalanceLedger.unlock_funds at h
  split at h
  · simp at h
  · split at h
    · simp at h
    · rename_i v1 heq1
      split_ifs at h with h1
      split at h
      · simp at h
      · rename_i b hb
        simp only [Except.ok.injEq] at h
        exact ⟨validate_positive_ok heq1, not_lt.mp h1, b, hb, h.symm⟩

theorem record_metrics_ok_balances {st : LedgerState} {u : Nat} {sd wd ld : Int}
    {st2 : LedgerState} (h : BalanceLedger.record_metrics st u sd wd ld = Except.ok st2) :
    st2.balances = st.balances := by
  unfold BalanceLedger.record_metrics at h
  split at h
  · simp at h
  · split at h
    · simp at h
    · split at h
      · simp at h
      · split at h
        · simp at h
        · split at h
          · simp at h
          · split at h
            · simp at h
            · split at h
              · simp at h
              · simp only [Except.ok.injEq] at h
                subst h
                rfl

theorem apply_balance_delta_ok {cur : UserBalance} {dw dl : Int} {b : UserBalance}
    (h : apply_balance_delta cur dw dl = Except.ok b) :
    b.withdrawable = cur.withdrawable + dw ∧ b.locked = cur.locked + dl ∧
    0 ≤ b.withdrawable ∧ 0 ≤ b.locked := by
  unfold apply_balance_delta at h
  split at h
  · simp at h
  · rename_i nw hnw
    split at h
    · simp at h
    · rename_i nl hnl
      unfold checked_add at hnw hnl
      split_ifs at hnw hnl with hw1 hl1
      try simp only [Except.ok.injEq] at hnw hnl
      split_ifs at h with h1 h2
      try simp only [Except.ok.injEq] at h
      subst h
      refine ⟨?_, ?_, ?_, ?_⟩ <;> simp_all <;> omega

theorem get_user_balance_store (st : LedgerState) (u0 u : Nat) (b : UserBalance) :
    get_user_balance (store_user_balance st u0 b) u =
      if u = u0 then b else get_user_balance st u := by
  by_cases h : u = u0 <;> simp [get_user_balance, store_user_balance, alookup, h]

theorem get_user_balance_eq_of_balances {st st2 : LedgerState}
    (h : st2.balances = st.balances) (u : Nat) :
    get_user_balance st2 u = get_user_balance st u := by
  unfold get_user_balance
  rw [h]

/-! ### Balance-ledger invariant (C1) -/

/-- Both balance buckets of every user are nonnegative. -/
def BalancesNonneg (st : LedgerState) : Prop :=
  ∀ u : Nat, 0 ≤ (get_user_balance st u).withdrawable ∧ 0 ≤ (get_user_balance st u).locked

theorem runOp_preserves_nonneg {op : LedgerOp} {st st2 : LedgerState}
    (hinv : BalancesNonneg st) (hok : runOp op st = Except.ok st2) : BalancesNonneg st2 := by
  cases op with
  | init s =>
    simp only [runOp] at hok
    intro u
    rw [get_user_balance_eq_of_balances (init_ok_balances hok)]
    exact hinv u
  | setBal u0 w l =>
    simp only [runOp] at hok
    obtain ⟨hw, hl, rfl⟩ := set_balance_ok hok
    intro u
    rw [get_user_balance_store]
    split
    · exact ⟨hw, hl⟩
    · exact hinv u
  | delta u0 dw dl =>
    simp only [runOp] at hok
    obtain ⟨b, hb, rfl⟩ := apply_delta_ok hok
    intro u
    rw [get_user_balance_store]
    split
    · exact ⟨(apply_balance_delta_ok hb).2.2.1, (apply_balance_delta_ok hb).2.2.2⟩
    · exact hinv u
  | lock u0 a =>
    simp only [runOp] at hok
    obtain ⟨ha, hwa, b, hb, rfl⟩ := lock_funds_ok hok
    intro u
    rw [get_user_balance_store]
    split
    · exact ⟨(apply_balance_delta_ok hb).2.2.1, (apply_balance_delta_ok hb).2.2.2⟩
    · exact hinv u
  | unlock u0 a =>
    simp only [runOp] at hok
    obtain ⟨ha, hla, b, hb, rfl⟩ := unlock_funds_ok hok
    intro u
    rw [get_user_balance_store]
    split
    · exact ⟨(apply_balance_delta_ok hb).2.2.1, (apply_balance_delta_ok hb).2.2.2⟩
    · exact hinv u
  | metrics u0 sd wd ld =>
    simp only [runOp] at hok
    intro u
    rw [get_user_balance_eq_of_balances (record_metrics_ok_balances hok)]
    exact hinv u

/-- C1. In every reachable state of the Balance Ledger (any sequence of
successful entry-point calls — `initialize`, `set_balance`, `apply_delta`,
`lock_funds`, `unlock_funds`, `record_metrics` — starting from the empty
state), every user's withdrawable and locked balances are each ≥ 0. -/
theorem reachable_balances_nonneg (st : LedgerState) (hst : Reachable st) :
    ∀ u : Nat, 0 ≤ (get_user_balance st u).withdrawable ∧
      0 ≤ (get_user_balance st u).locked := by
  induction hst with
  | empty =>
    intro u
    simp [emptyLedger, get_user_balance, alookup]
  | step op hre hwf hok ih => exact runOp_preserves_nonneg ih hok

/-- Witness for C1: the state reached by `initialize(1)`,
`set_balance(10, 5, 7)`, `lock_funds(10, 2)` satisfies the invariant at
user 10 (stored) and user 99 (defaulted). -/
theorem reachable_balances_nonneg_witness :
    (0 ≤ (get_user_balance ⟨some 1, [(10, ⟨3, 9⟩), (10, ⟨5, 7⟩)], []⟩ 10).withdrawable ∧
      0 ≤ (get_user_balance ⟨some 1, [(10, ⟨3, 9⟩), (10, ⟨5, 7⟩)], []⟩ 10).locked) ∧
    (0 ≤ (get_user_balance ⟨some 1, [(10, ⟨3, 9⟩), (10, ⟨5, 7⟩)], []⟩ 99).withdrawable ∧
      0 ≤ (get_user_balance ⟨some 1, [(10, ⟨3, 9⟩), (10, ⟨5, 7⟩)], []⟩ 99).locked) := by
  have h1 : Reachable ⟨some 1, [], []⟩ :=
    Reachable.step (LedgerOp.init 1) Reachable.empty (by decide) (by rfl)
  have h2 : Reachable ⟨some 1, [(10, ⟨5, 7⟩)], []⟩ :=
    Reachable.step (LedgerOp.setBal 10 5 7) h1 (by decide) (by rfl)
  have h3 : Reachable ⟨some 1, [(10, ⟨3, 9⟩), (10, ⟨5, 7⟩)], []⟩ :=
    Reachable.step (LedgerOp.lock 10 2) h2 (by decide) (by rfl)
  exact ⟨reachable_balances_nonneg _ h3 10, reachable_balances_nonneg _ h3 99⟩

/-! ### Lock/unlock conservation (C8) -/

theorem userBalance_ext {a b : UserBalance} (hw : a.withdrawable = b.withdrawable)
    (hl : a.locked = b.locked) : a = b := by
  cases a
  cases b
  simp_all

/-- C8. For every user `u` and amount `a > 0` such that both calls
succeed, `lock(u, a)` followed by `unlock(u, a)` returns the user's
`(withdrawable, locked)` pair to exactly its value before the lock, and
each individual call preserves the sum `withdrawable + locked`. -/
theorem lock_unlock_roundtrip (st : LedgerState) (u : Nat) (a : Int)
    (st1 st2 : LedgerState) (ha : 0 < a)
    (h1 : BalanceLedger.lock_funds st u a = Except.ok st1)
    (h2 : BalanceLedger.unlock_funds st1 u a = Except.ok st2) :
    get_user_balance st2 u = get_user_balance st u ∧
    (get_user_balance st1 u).withdrawable + (get_user_balance st1 u).locked =
      (get_user_balance st u).withdrawable + (get_user_balance st u).locked ∧
    (get_user_balance st2 u).withdrawable + (get_user_balance st2 u).locked =
      (get_user_balance st1 u).withdrawable + (get_user_balance st1 u).locked := by
  obtain ⟨ha1, hwa, b1, hb1, rfl⟩ := lock_funds_ok h1
  have e1 : get_user_balance (store_user_balance st u b1) u = b1 := by
    rw [get_user_balance_store]
    simp
  obtain ⟨ha2, hla, b2, hb2, rfl⟩ := unlock_funds_ok h2
  rw [e1] at hb2
  obtain ⟨hb1w, hb1l, hb1wn, hb1ln⟩ := apply_balance_delta_ok hb1
  obtain ⟨hb2w, hb2l, hb2wn, hb2ln⟩ := apply_balance_delta_ok hb2
  have e2 : get_user_balance
      (store_user_balance (store_user_balance st u b1) u b2) u = b2 := by
    rw [get_user_balance_store]
    simp
  refine ⟨?_, ?_, ?_⟩
  · rw [e2]
    exact userBalance_ext (by omega) (by omega)
  · rw [e1]
    omega
  · rw [e2, e1]
    omega

/-- Witness for C8: `(withdrawable, locked) = (5, 7)`, `lock(10, 2)` then
`unlock(10, 2)` restores the pair and each step preserves the sum. -/
theorem lock_unlock_roundtrip_witness :
    (0 : Int) < 2 ∧
    (get_user_balance
        ⟨some 1, [(10, ⟨5, 7⟩), (10, ⟨3, 9⟩), (10, ⟨5, 7⟩)], []⟩ 10 =
      get_user_balance ⟨some 1, [(10, ⟨5, 7⟩)], []⟩ 10 ∧
    (get_user_balance ⟨some 1, [(10, ⟨3, 9⟩), (10, ⟨5, 7⟩)], []⟩ 10).withdrawable +
        (get_user_balance ⟨some 1, [(10, ⟨3, 9⟩), (10, ⟨5, 7⟩)], []⟩ 10).locked =
      (get_user_balance ⟨some 1, [(10, ⟨5, 7⟩)], []⟩ 10).withdrawable +
        (get_user_balance ⟨some 1, [(10, ⟨5, 7⟩)], []⟩ 10).locked ∧
    (get_user_balance
          ⟨some 1, [(10, ⟨5, 7⟩), (10, ⟨3, 9⟩), (10, ⟨5, 7⟩)], []⟩ 10).withdrawable +
        (get_user_balance
          ⟨some 1, [(10, ⟨5, 7⟩), (10, ⟨3, 9⟩), (10, ⟨5, 7⟩)], []⟩ 10).locked =
      (get_user_balance ⟨some 1, [(10, ⟨3, 9⟩), (10, ⟨5, 7⟩)], []⟩ 10).withdrawable +
        (get_user_balance ⟨some 1, [(10, ⟨3, 9⟩), (10, ⟨5, 7⟩)], []⟩ 10).locked) :=
  ⟨by decide,
    lock_unlock_roundtrip ⟨some 1, [(10, ⟨5, 7⟩)], []⟩ 10 2
      ⟨some 1, [(10, ⟨3, 9⟩), (10, ⟨5, 7⟩)], []⟩
      ⟨some 1, [(10, ⟨5, 7⟩), (10, ⟨3, 9⟩), (10, ⟨5, 7⟩)], []⟩
      (by decide) (by rfl) (by rfl)⟩

/-! ### Uninitialized ledger calls (C9) -/

/-- C9. Every mutating Balance Ledger entry point (`set_balance`,
`apply_delta`, `lock_funds`, `unlock_funds`, `record_metrics`) called
before `initialize` has ever run fails with `Unauthorized` (the ledger's
own error enum, which has no `NotInitialized` variant); an error return
models the host transaction abort, so no state is changed. -/
theorem mutations_before_init_unauthorized (st : LedgerState) (hs : st.signer = none)
    (u : Nat) (w l dw dl a a2 sd wd ld : Int) :
    BalanceLedger.set_balance st u w l = Except.error BalanceLedgerError.Unauthorized ∧
    BalanceLedger.apply_delta st u dw dl = Except.error BalanceLedgerError.Unauthorized ∧
    BalanceLedger.lock_funds st u a = Except.error BalanceLedgerError.Unauthorized ∧
    BalanceLedger.unlock_funds st u a2 = Except.error BalanceLedgerError.Unauthorized ∧
    BalanceLedger.record_metrics st u sd wd ld =
      Except.error BalanceLedgerError.Unauthorized := by
  have hauth : require_backend_auth st = Except.error BalanceLedgerError.Unauthorized := by
    simp [require_backend_auth, hs]
  refine ⟨?_, ?_, ?_, ?_, ?_⟩ <;>
    simp [BalanceLedger.set_balance, BalanceLedger.apply_delta, BalanceLedger.lock_funds,
      BalanceLedger.unlock_funds, BalanceLedger.record_metrics, hauth]

/-- Witness for C9 at the empty (never-initialized) state. -/
theorem mutations_before_init_unauthorized_witness :
    emptyLedger.signer = none ∧
    (BalanceLedger.set_balance emptyLedger 3 4 5 =
        Except.error BalanceLedgerError.Unauthorized ∧
      BalanceLedger.apply_delta emptyLedger 3 (-1) 1 =
        Except.error BalanceLedgerError.Unauthorized ∧
      BalanceLedger.lock_funds emptyLedger 3 2 =
        Except.error BalanceLedgerError.Unauthorized ∧
      BalanceLedger.unlock_funds emptyLedger 3 2 =
        Except.error BalanceLedgerError.Unauthorized ∧
      BalanceLedger.record_metrics emptyLedger 3 1 1 1 =
        Except.error BalanceLedgerError.Unauthorized) :=
  ⟨rfl, mutations_before_init_unauthorized emptyLedger rfl 3 4 5 (-1) 1 2 2 1 1 1⟩

/-! ### Sum overflow (C4) -/

/-- C4 counterexample. `set_balance(10, i128::MAX, 1)` on an
initialized ledger *succeeds* and stores a state whose
`withdrawable + locked` exceeds `i128::MAX` — refuting the claim that any
write producing such a state fails.  `get_total` on the stored state does
fail with `Overflow`. -/
theorem set_balance_stores_overflowing_sum :
    BalanceLedger.set_balance ⟨some 1, [], []⟩ 10 i128Max 1 =
      Except.ok ⟨some 1, [(10, ⟨i128Max, 1⟩)], []⟩ ∧
    i128Max <
      (get_user_balance ⟨some 1, [(10, ⟨i128Max, 1⟩)], []⟩ 10).withdrawable +
        (get_user_balance ⟨some 1, [(10, ⟨i128Max, 1⟩)], []⟩ 10).locked ∧
    BalanceLedger.get_total ⟨some 1, [(10, ⟨i128Max, 1⟩)], []⟩ 10 =
      Except.error BalanceLedgerError.Overflow := by
  refine ⟨by decide, by decide, by decide⟩

/-- C4 (amended). A write checks each field but not their sum:
`set_balance` succeeds on any two nonnegative arguments, storing them even
when `withdrawable + locked` exceeds `i128::MAX`; and `get_total` fails
with `Overflow` exactly when the stored sum lies outside the `i128`
range, rather than wrapping. -/
theorem write_unchecked_sum_get_total_overflow (st : LedgerState) (u : Nat) (w l : Int)
    (hs : ∃ s, st.signer = some s) (hw : 0 ≤ w) (hl : 0 ≤ l) :
    BalanceLedger.set_balance st u w l = Except.ok (store_user_balance st u ⟨w, l⟩) ∧
    ∀ (st2 : LedgerState) (u2 : Nat),
      (BalanceLedger.get_total st2 u2 = Except.error BalanceLedgerError.Overflow ↔
        i128Ok ((get_user_balance st2 u2).withdrawable +
          (get_user_balance st2 u2).locked) = false) := by
  constructor
  · obtain ⟨s, hsig⟩ := hs
    have hw2 : ¬w < 0 := not_lt.mpr hw
    have hl2 : ¬l < 0 := not_lt.mpr hl
    simp [BalanceLedger.set_balance, require_backend_auth, hsig, validate_non_negative,
      hw2, hl2]
  · intro st2 u2
    by_cases hio : i128Ok ((get_user_balance st2 u2).withdrawable +
        (get_user_balance st2 u2).locked) = true
    · simp [BalanceLedger.get_total, checked_add, hio]
    · simp only [Bool.not_eq_true] at hio
      simp [BalanceLedger.get_total, checked_add, hio]

/-- Witness for C4 (amended): the `set_balance(10, i128::MAX, 1)` write
and the `Overflow` read on its result. -/
theorem write_unchecked_sum_get_total_overflow_witness :
    (∃ s, (⟨some 1, [], []⟩ : LedgerState).signer = some s) ∧ 0 ≤ i128Max ∧ 0 ≤ (1 : Int) ∧
    BalanceLedger.set_balance ⟨some 1, [], []⟩ 10 i128Max 1 =
      Except.ok (store_user_balance ⟨some 1, [], []⟩ 10 ⟨i128Max, 1⟩) ∧
    (BalanceLedger.get_total ⟨some 1, [(10, ⟨i128Max, 1⟩)], []⟩ 10 =
        Except.error BalanceLedgerError.Overflow ↔
      i128Ok ((get_user_balance ⟨some 1, [(10, ⟨i128Max, 1⟩)], []⟩ 10).withdrawable +
        (get_user_balance ⟨some 1, [(10, ⟨i128Max, 1⟩)], []⟩ 10).locked) = false) :=
  ⟨⟨1, rfl⟩, by decide, by decide,
    (write_unchecked_sum_get_total_overflow ⟨some 1, [], []⟩ 10 i128Max 1 ⟨1, rfl⟩
      (by decide) (by decide)).1,
    (write_unchecked_sum_get_total_overflow ⟨some 1, [], []⟩ 10 i128Max 1 ⟨1, rfl⟩
      (by decide) (by decide)).2 ⟨some 1, [(10, ⟨i128Max, 1⟩)], []⟩ 10⟩

/-! ### Initialization guards (C10) -/

/-- C10. The Settlement Orchestrator's `initialize` has no one-time
guard: every call succeeds and silently overwrites the stored backend
signer (and ledger address) with the caller-supplied identities — unlike
the ledger's `initialize`, which fails with `AlreadyInitialized` on any
state whose signer is already stored. -/
theorem settlement_init_no_guard (sys : SysState) (b l : Nat) (ls : LedgerState)
    (b2 : Nat) (hls : ∃ s0, ls.signer = some s0) :
    ((Settlement.init sys b l).stl.signer = some b ∧
      (Settlement.init sys b l).stl.ledgerAddr = some l) ∧
    BalanceLedger.init ls b2 = Except.error BalanceLedgerError.AlreadyInitialized := by
  obtain ⟨s0, hs0⟩ := hls
  exact ⟨⟨rfl, rfl⟩, by simp [BalanceLedger.init, hs0]⟩

/-- Witness for C10: re-initializing a settlement state that already holds
signer 5 silently installs signer 1; the ledger's `initialize` on a state
holding signer 9 fails. -/
theorem settlement_init_no_guard_witness :
    (∃ s0, (⟨some 9, [], []⟩ : LedgerState).signer = some s0) ∧
    (((Settlement.init ⟨⟨some 5, some 6, [], []⟩, emptyLedger⟩ 1 2).stl.signer = some 1 ∧
      (Settlement.init ⟨⟨some 5, some 6, [], []⟩, emptyLedger⟩ 1 2).stl.ledgerAddr = some 2) ∧
    BalanceLedger.init ⟨some 9, [], []⟩ 4 =
      Except.error BalanceLedgerError.AlreadyInitialized) :=
  ⟨⟨9, rfl⟩,
    settlement_init_no_guard ⟨⟨some 5, some 6, [], []⟩, emptyLedger⟩ 1 2
      ⟨some 9, [], []⟩ 4 ⟨9, rfl⟩⟩

/-! ### Settlement (C5, C6, C7) -/

theorem settlement_auth_ok {st : SettlementState} {u : Unit}
    (h : settlement_require_backend_auth st = Except.ok u) : ∃ x, st.signer = some x := by
  unfold settlement_require_backend_auth at h
  split at h
  · rename_i x hx
    exact ⟨x, hx⟩
  · simp at h

theorem ensure_not_replayed_ok_shape {now : Nat} {m : OpMap} {scope : String} {h : Nat}
    {ttl : Option Nat} {m2 : OpMap}
    (hok : ensure_not_replayed now m scope h ttl = Except.ok m2) :
    ∃ rest, m2 = ((scope, h), (⟨now, ttl⟩ : ExecutionRecord)) :: rest := by
  cases hrec : alookup ((scope, h) : OpKey) m with
  | none =>
    simp [ensure_not_replayed, hrec] at hok
    exact ⟨m, hok.symm⟩
  | some r =>
    by_cases hexp : is_expired now r = true
    · simp [ensure_not_replayed, hrec, hexp] at hok
      exact ⟨aremove ((scope, h) : OpKey) m, hok.symm⟩
    · simp [ensure_not_replayed, hrec, hexp] at hok

theorem ensure_not_replayed_ok_of_not_executed {now : Nat} {m : OpMap} {scope : String}
    {h : Nat} (ttl : Option Nat)
    (hg : is_operation_executed now m scope h = false) :
    ∃ m2, ensure_not_replayed now m scope h ttl = Except.ok m2 := by
  unfold is_operation_executed at hg
  cases hrec : alookup ((scope, h) : OpKey) m with
  | none =>
    exact ⟨((scope, h), ⟨now, ttl⟩) :: m, by simp [ensure_not_replayed, hrec]⟩
  | some r =>
    rw [hrec] at hg
    simp at hg
    exact ⟨((scope, h), ⟨now, ttl⟩) :: aremove ((scope, h) : OpKey) m,
      by simp [ensure_not_replayed, hrec, hg]⟩

/-- A successful `settle_bet` leaves the backend signer in place, installs
the fresh operation record at the head of the idempotency map, and marks
the wager settled. -/
theorem settle_bet_ok_shape {now : Nat} {sys : SysState} {oph bet bettor : Nat}
    {winner : Option Nat} {s p : Int} {ty : String} {ttl : Option Nat} {sys2 : SysState}
    (hok : Settlement.settle_bet now sys oph bet bettor winner s p ty ttl =
      Except.ok sys2) :
    (∃ x, sys.stl.signer = some x) ∧
    sys2.stl.signer = sys.stl.signer ∧
    (∃ rest, sys2.stl.ops = (("settlement", oph), (⟨now, ttl⟩ : ExecutionRecord)) :: rest) ∧
    sys2.stl.settled = bet :: sys.stl.settled := by
  unfold Settlement.settle_bet at hok
  split at hok
  · simp at hok
  · rename_i u hauth
    split at hok
    · simp at hok
    · rename_i ops2 hops
      split_ifs at hok with hmem
      split at hok
      · simp at hok
      · rename_i addr haddr
        split at hok
        · simp at hok
        · rename_i ledger2 hdisp
          simp only [Except.ok.injEq] at hok
          subst hok
          obtain ⟨rest, hrest⟩ := ensure_not_replayed_ok_shape hops
          exact ⟨settlement_auth_ok hauth, rfl, ⟨rest, by simp [hrest]⟩, rfl⟩

/-- C6 counterexample. After a successful WIN settlement of wager 42
under operation hash 7 (no TTL), a later settle call for the same wager 42
that reuses operation hash 7 fails with `DuplicateOperation`, not
`BetAlreadySettled` — the replay guard runs before the settled check. -/
theorem second_settle_same_hash_not_bet_already_settled :
    (Settlement.settle_bet 0 ⟨⟨some 1, some 2, [], []⟩, ⟨some 1, [(10, ⟨0, 100⟩)], []⟩⟩
        7 42 10 (some 20) 100 200 "WIN" none).isOk = true ∧
    ((Settlement.settle_bet 0 ⟨⟨some 1, some 2, [], []⟩, ⟨some 1, [(10, ⟨0, 100⟩)], []⟩⟩
        7 42 10 (some 20) 100 200 "WIN" none).bind
      (fun sys1 => Settlement.settle_bet 5 sys1 7 42 10 (some 20) 100 200 "WIN" none)) =
      Except.error (SettleFailure.contract ContractError.DuplicateOperation) :=
  ⟨rfl, rfl⟩

/-- C6 (amended). After any successful settle call for a wager, every
later settle call for the same wager that gets past the operation-hash
replay guard (its hash has no live record — a different hash, or an
expired/cleaned one) fails with `BetAlreadySettled`, at every later time,
whatever arguments and outcome it supplies: the settled mark never
expires.  A later call replaying a still-live operation hash fails with
`DuplicateOperation` instead (see the counterexample). -/
theorem settled_wager_blocks_resettle (now now2 : Nat) (sys sys2 : SysState)
    (oph oph2 bet bettor bettor2 : Nat) (winner winner2 : Option Nat)
    (s p s2 p2 : Int) (ty ty2 : String) (ttl ttl2 : Option Nat)
    (hok : Settlement.settle_bet now sys oph bet bettor winner s p ty ttl =
      Except.ok sys2)
    (hguard : is_operation_executed now2 sys2.stl.ops "settlement" oph2 = false) :
    Settlement.settle_bet now2 sys2 oph2 bet bettor2 winner2 s2 p2 ty2 ttl2 =
      Except.error (SettleFailure.contract ContractError.BetAlreadySettled) := by
  obtain ⟨⟨x, hx⟩, hsig, ⟨rest, hops⟩, hsettled⟩ := settle_bet_ok_shape hok
  have hauth : settlement_require_backend_auth sys2.stl = Except.ok () := by
    simp [settlement_require_backend_auth, hsig, hx]
  obtain ⟨m2, hens⟩ := ensure_not_replayed_ok_of_not_executed ttl2 hguard
  unfold Settlement.settle_bet
  simp [hauth, hens, hsettled]

/-- Witness for C6 (amended): wager 42 settled under hash 7; a later call
at time 9 under fresh hash 8 fails with `BetAlreadySettled`. -/
theorem settled_wager_blocks_resettle_witness :
    (Settlement.settle_bet 0 ⟨⟨some 1, some 2, [], []⟩, ⟨some 1, [(10, ⟨0, 100⟩)], []⟩⟩
        7 42 10 (some 20) 100 200 "WIN" none =
      Except.ok ⟨⟨some 1, some 2, [42], [(("settlement", 7), ⟨0, none⟩)]⟩,
        ⟨some 1, [(20, ⟨200, 0⟩), (10, ⟨0, 0⟩), (10, ⟨0, 100⟩)], []⟩⟩ ∧
    is_operation_executed 9 [(("settlement", 7), ⟨0, none⟩)] "settlement" 8 = false) ∧
    Settlement.settle_bet 9
        ⟨⟨some 1, some 2, [42], [(("settlement", 7), ⟨0, none⟩)]⟩,
          ⟨some 1, [(20, ⟨200, 0⟩), (10, ⟨0, 0⟩), (10, ⟨0, 100⟩)], []⟩⟩
        8 42 11 none 50 60 "LOSS" (some 3) =
      Except.error (SettleFailure.contract ContractError.BetAlreadySettled) :=
  ⟨⟨rfl, rfl⟩,
    settled_wager_blocks_resettle 0 9
      ⟨⟨some 1, some 2, [], []⟩, ⟨some 1, [(10, ⟨0, 100⟩)], []⟩⟩
      ⟨⟨some 1, some 2, [42], [(("settlement", 7), ⟨0, none⟩)]⟩,
        ⟨some 1, [(20, ⟨200, 0⟩), (10, ⟨0, 0⟩), (10, ⟨0, 100⟩)], []⟩⟩
      7 8 42 10 11 (some 20) none 100 200 50 60 "WIN" "LOSS" none (some 3)
      rfl rfl⟩

/-- C7. A settle call that repeats a previously successful settle's
operation hash while that record is live (its TTL window has not elapsed,
or it has no TTL) fails with `DuplicateOperation`, for every outcome,
every wager id (same or different), and every argument list; the guard
runs before any fund movement, and the error aborts the transaction with
no balance change. -/
theorem replayed_settle_hash_duplicate (now now2 : Nat) (sys sys2 : SysState)
    (oph bet bet2 bettor bettor2 : Nat) (winner winner2 : Option Nat)
    (s p s2 p2 : Int) (ty ty2 : String) (ttl ttl2 : Option Nat)
    (hok : Settlement.settle_bet now sys oph bet bettor winner s p ty ttl =
      Except.ok sys2)
    (hwindow : ttl = none ∨ ∃ t, ttl = some t ∧ now2 - now < t) :
    Settlement.settle_bet now2 sys2 oph bet2 bettor2 winner2 s2 p2 ty2 ttl2 =
      Except.error (SettleFailure.contract ContractError.DuplicateOperation) := by
  obtain ⟨⟨x, hx⟩, hsig, ⟨rest, hops⟩, hsettled⟩ := settle_bet_ok_shape hok
  have hauth : settlement_require_backend_auth sys2.stl = Except.ok () := by
    simp [settlement_require_backend_auth, hsig, hx]
  have hlive : is_expired now2 (⟨now, ttl⟩ : ExecutionRecord) = false := by
    rcases hwindow with hn | ⟨t, ht, hlt⟩
    · simp [is_expired, hn]
    · simp only [is_expired, ht, decide_eq_false_iff_not, not_le]
      omega
  have hens : ensure_not_replayed now2 sys2.stl.ops "settlement" oph ttl2 =
      Except.error ContractError.DuplicateOperation := by
    simp [ensure_not_replayed, hops, alookup_cons_self, hlive]
  unfold Settlement.settle_bet
  simp [hauth, hens]

/-- Witness for C7: wager 42 settled at time 0 under hash 7 with TTL 5; a
retry at time 3 with the same hash but different wager 43 and outcome
`DRAW` fails with `DuplicateOperation`. -/
theorem replayed_settle_hash_duplicate_witness :
    (Settlement.settle_bet 0 ⟨⟨some 1, some 2, [], []⟩, ⟨some 1, [(10, ⟨0, 100⟩)], []⟩⟩
        7 42 10 (some 20) 100 200 "WIN" (some 5) =
      Except.ok ⟨⟨some 1, some 2, [42], [(("settlement", 7), ⟨0, some 5⟩)]⟩,
        ⟨some 1, [(20, ⟨200, 0⟩), (10, ⟨0, 0⟩), (10, ⟨0, 100⟩)], []⟩⟩ ∧
      ((some 5 : Option Nat) = none ∨ ∃ t, (some 5 : Option Nat) = some t ∧ 3 - 0 < t)) ∧
    Settlement.settle_bet 3
        ⟨⟨some 1, some 2, [42], [(("settlement", 7), ⟨0, some 5⟩)]⟩,
          ⟨some 1, [(20, ⟨200, 0⟩), (10, ⟨0, 0⟩), (10, ⟨0, 100⟩)], []⟩⟩
        7 43 10 none 50 0 "DRAW" none =
      Except.error (SettleFailure.contract ContractError.DuplicateOperation) :=
  ⟨⟨rfl, Or.inr ⟨5, rfl, by decide⟩⟩,
    replayed_settle_hash_duplicate 0 3
      ⟨⟨some 1, some 2, [], []⟩, ⟨some 1, [(10, ⟨0, 100⟩)], []⟩⟩
      ⟨⟨some 1, some 2, [42], [(("settlement", 7), ⟨0, some 5⟩)]⟩,
        ⟨some 1, [(20, ⟨200, 0⟩), (10, ⟨0, 0⟩), (10, ⟨0, 100⟩)], []⟩⟩
      7 42 43 10 10 (some 20) none 100 200 50 0 "WIN" "DRAW" (some 5) none
      rfl (Or.inr ⟨5, rfl, by decide⟩)⟩

/-- C5. For every successful WIN settlement with bettor `A`, winner `B`
(`A ≠ B`), staked amount `s` and payout `p`, the bettor's locked balance
decreases by exactly `s` and the winner's withdrawable balance increases
by exactly `p` — independently of any relation between `s` and `p` —
given `locked(A) ≥ s` beforehand. -/
theorem win_settlement_balance_moves (now : Nat) (sys sys2 : SysState)
    (oph bet A B : Nat) (s p : Int) (ttl : Option Nat)
    (hAB : A ≠ B) (hlocked : s ≤ (get_user_balance sys.ledger A).locked)
    (hok : Settlement.settle_bet now sys oph bet A (some B) s p "WIN" ttl =
      Except.ok sys2) :
    (get_user_balance sys2.ledger A).locked = (get_user_balance sys.ledger A).locked - s ∧
    (get_user_balance sys2.ledger B).withdrawable =
      (get_user_balance sys.ledger B).withdrawable + p := by
  unfold Settlement.settle_bet at hok
  split at hok
  · simp at hok
  · split at hok
    · simp at hok
    · split_ifs at hok with hmem
      split at hok
      · simp at hok
      · split at hok
        · simp at hok
        · rename_i ledger2 hdisp
          simp only [Except.ok.injEq] at hok
          subst hok
          unfold settle_dispatch at hdisp
          rw [if_pos rfl] at hdisp
          split at hdisp
          · simp at hdisp
          · rename_i winner_addr hwinner
            simp only [Option.some.injEq] at hwinner
            subst hwinner
            split at hdisp
            · simp at hdisp
            · rename_i ledger1 hd1
              split at hdisp
              · simp at hdisp
              · rename_i ledgerf hd2
                simp only [Except.ok.injEq] at hdisp
                subst hdisp
                obtain ⟨b1, hb1, rfl⟩ := apply_delta_ok hd1
                obtain ⟨b2, hb2, rfl⟩ := apply_delta_ok hd2
                rw [get_user_balance_store, if_neg (fun hBA => hAB hBA.symm)] at hb2
                obtain ⟨hb1w, hb1l, hb1wn, hb1ln⟩ := apply_balance_delta_ok hb1
                obtain ⟨hb2w, hb2l, hb2wn, hb2ln⟩ := apply_balance_delta_ok hb2
                constructor
                · rw [get_user_balance_store, if_neg hAB, get_user_balance_store,
                    if_pos rfl]
                  omega
                · rw [get_user_balance_store, if_pos rfl]
                  omega

/-- Witness for C5: from `locked(10) = 100`, a WIN settlement with staked
amount 100 and payout 200 zeroes the bettor's locked balance and credits
the winner's withdrawable balance with 200. -/
theorem win_settlement_balance_moves_witness :
    ((10 : Nat) ≠ 20 ∧
      (100 : Int) ≤ (get_user_balance ⟨some 1, [(10, ⟨0, 100⟩)], []⟩ 10).locked) ∧
    ((get_user_balance
          (⟨some 1, [(20, ⟨200, 0⟩), (10, ⟨0, 0⟩), (10, ⟨0, 100⟩)], []⟩ : LedgerState)
          10).locked =
        (get_user_balance ⟨some 1, [(10, ⟨0, 100⟩)], []⟩ 10).locked - 100 ∧
      (get_user_balance
          (⟨some 1, [(20, ⟨200, 0⟩), (10, ⟨0, 0⟩), (10, ⟨0, 100⟩)], []⟩ : LedgerState)
          20).withdrawable =
        (get_user_balance ⟨some 1, [(10, ⟨0, 100⟩)], []⟩ 20).withdrawable + 200) :=
  ⟨⟨by decide, by decide⟩,
    win_settlement_balance_moves 0
      ⟨⟨some 1, some 2, [], []⟩, ⟨some 1, [(10, ⟨0, 100⟩)], []⟩⟩
      ⟨⟨some 1, some 2, [42], [(("settlement", 7), ⟨0, none⟩)]⟩,
        ⟨some 1, [(20, ⟨200, 0⟩), (10, ⟨0, 0⟩), (10, ⟨0, 100⟩)], []⟩⟩
      7 42 10 20 100 200 none (by decide) (by decide) rfl⟩
